/-
Verification of the customer-support ticket audit pipeline (`main.py`)
against its specification.

The pipeline is embedded shallowly:

* pandas cells that may hold NaN are modelled by `PdCell`;
* Python string operations (`strip`, `lower`, `title`, `isupper`,
  substring `in`) are modelled character-exactly for ASCII text by
  `pyStrip`, `pyLower`, `pyTitle`, `pyIsUpper`, `strContains`;
* a DataFrame is a list of (index label, row) pairs; `pd.read_csv`
  yields labels 0..n-1, `drop_duplicates(inplace=True)` keeps the first
  occurrence of each duplicated row and does NOT reset labels, and
  `df.loc[i, col]` is label lookup (`pdLoc`), which in Python raises
  KeyError when the label is absent — modelled by `Option`;
* numeric values are modelled by exact rationals `ℚ`.
-/

import Mathlib

set_option linter.unusedVariables false

/-! ## Python string primitives -/

/-- The whitespace characters stripped by Python's `str.strip()`. -/
def isPySpace (c : Char) : Bool :=
  c = ' ' || c = '\t' || c = '\n' || c = '\x0d' || c = '\x0b' || c = '\x0c'

/-- Python `str.strip()`: drop leading and trailing whitespace. -/
def pyStrip (s : String) : String :=
  ⟨((s.data.dropWhile isPySpace).reverse.dropWhile isPySpace).reverse⟩

/-- Python `str.lower()` (ASCII case mapping). -/
def pyLower (s : String) : String :=
  ⟨s.data.map Char.toLower⟩

/-- Helper for `pyTitle`: `prevCased` records whether the previous
character was cased (alphabetic). -/
def pyTitleAux : List Char → Bool → List Char
  | [], _ => []
  | c :: cs, prevCased =>
    (if c.isAlpha then (if prevCased then c.toLower else c.toUpper) else c)
      :: pyTitleAux cs c.isAlpha

/-- Python `str.title()` (ASCII): uppercase each letter that follows a
non-letter, lowercase every other letter. -/
def pyTitle (s : String) : String :=
  ⟨pyTitleAux s.data false⟩

/-- Python `needle in hay`: contiguous substring containment. -/
def strContains (hay needle : String) : Bool :=
  decide (needle.data <:+: hay.data)

/-- Python `str.isupper()` (ASCII): at least one cased character and no
lowercase cased character. -/
def pyIsUpper (s : String) : Bool :=
  s.data.any Char.isAlpha && s.data.all (fun c => !c.isLower)

/-! ## pandas cells -/

/-- A pandas cell of an object column: either NaN (missing) or a string. -/
inductive PdCell where
  | nan : PdCell
  | str : String → PdCell
deriving DecidableEq, Repr

/-- Python `astype(str)` on one cell: NaN prints as the string "nan". -/
def astypeStr : PdCell → String
  | .nan => "nan"
  | .str s => s

/-- pandas `fillna(d)` on one cell of an object column. -/
def fillnaCell (d : String) : PdCell → PdCell
  | .nan => .str d
  | .str s => .str s

/-! ## Cleaning stage (`clean_text_columns`, `handle_missing_values`),
    per-cell -/

/-- `clean_text_columns` on the `priority` column (line 52):
`astype(str).str.strip().str.title()`. -/
def cleanPriorityCell (c : PdCell) : PdCell :=
  .str (pyTitle (pyStrip (astypeStr c)))

/-- `clean_text_columns` on the `status` column (line 55). -/
def cleanStatusCell (c : PdCell) : PdCell :=
  .str (pyTitle (pyStrip (astypeStr c)))

/-- `clean_text_columns` on the `subject` column (line 58):
`astype(str).str.strip()`. -/
def cleanSubjectCell (c : PdCell) : PdCell :=
  .str (pyStrip (astypeStr c))

/-- `clean_text_columns` on the `message` column (line 61). -/
def cleanMessageCell (c : PdCell) : PdCell :=
  .str (pyStrip (astypeStr c))

/-- `handle_missing_values` on the `priority` column (line 71):
`fillna("Low")`. -/
def fillPriority (c : PdCell) : PdCell := fillnaCell "Low" c

/-- `handle_missing_values` on the `status` column (line 74):
`fillna("Open")`. -/
def fillStatus (c : PdCell) : PdCell := fillnaCell "Open" c

/-- The `priority` cell after the cleaning and missing-value stages, in
pipeline order (`clean_text_columns` then `handle_missing_values`). -/
def priorityAfterPipeline (c : PdCell) : PdCell :=
  fillPriority (cleanPriorityCell c)

/-- The `status` cell after the cleaning and missing-value stages. -/
def statusAfterPipeline (c : PdCell) : PdCell :=
  fillStatus (cleanStatusCell c)

/-! ## Classifier (`classify_issues`), per-row text logic -/

def billing_words : List String := ["refund", "charge", "invoice", "payment"]
def technical_words : List String := ["error", "bug", "crash", "login", "failed"]
def account_words : List String := ["password", "email", "account", "verify"]
def delivery_words : List String := ["delivery", "shipping", "late", "tracking"]

/-- The inner `for word in words: if word in text: ... break` scan: does
any keyword of the set occur in the text?  (The loop's `break` only
short-circuits; which member matches never affects the label.) -/
def anyWordIn (words : List String) (text : String) : Bool :=
  words.any (fun w => strContains text w)

/-- The body of the `classify_issues` loop for one row: combine subject
and message with a single space, lowercase, then test the four keyword
sets in fixed order with first match winning, defaulting to "Other". -/
def classifyText (subject message : String) : String :=
  let text := pyLower (subject ++ " " ++ message)
  if anyWordIn billing_words text then "Billing"
  else if anyWordIn technical_words text then "Technical"
  else if anyWordIn account_words text then "Account"
  else if anyWordIn delivery_words text then "Delivery"
  else "Other"

/-! ## Flagger (`flag_tickets`), per-row logic -/

/-- The body of the `flag_tickets` loop for one row: ordered rules with
`elif` short-circuiting, returning `(is_flagged, flag_reason)`. -/
def flagMessage (message : String) : Bool × String :=
  if message.length < 20 then (true, "Message too short")
  else if pyIsUpper message then (true, "Message in all caps")
  else if strContains message "!!!" || strContains message "???" then
    (true, "Excessive punctuation")
  else (false, "")

/-! ## DataFrame-level stages -/

/-- A ticket row after `clean_text_columns` (all text columns are
strings). -/
structure StrRow where
  priority : String
  status : String
  subject : String
  message : String
  resolution_time_hours : ℚ
deriving DecidableEq, Repr

/-- A DataFrame: rows tagged with their pandas index labels. -/
def Df := List (Nat × StrRow)

instance : DecidableEq Df := inferInstanceAs (DecidableEq (List (Nat × StrRow)))

/-- pandas `df.loc[i]` row lookup by index label (labels are unique). -/
def pdLoc (df : Df) (i : Nat) : Option StrRow :=
  match df with
  | [] => none
  | (j, r) :: rest => if j = i then some r else pdLoc rest i

/-- Helper for `remove_duplicates`: keep a row iff its value has not
been seen earlier; index labels are kept unchanged. -/
def dedupAux : List (Nat × StrRow) → List StrRow → List (Nat × StrRow)
  | [], _ => []
  | (i, r) :: rest, seen =>
    if r ∈ seen then dedupAux rest seen
    else (i, r) :: dedupAux rest (r :: seen)

/-- `remove_duplicates` (lines 34-43): `df.drop_duplicates(inplace=True)`
keeps the first occurrence of each row value and does not reset the
index. -/
def remove_duplicates (df : Df) : Df := dedupAux df []

/-- The `classify_issues` loop over labels computed by one row:
`df.loc[i, "subject"] + " " + df.loc[i, "message"]`; a missing label is
a KeyError, modelled as `none`. -/
def classifyRowAt (df : Df) (i : Nat) : Option String :=
  (pdLoc df i).map (fun r => classifyText r.subject r.message)

/-- Accumulate the per-row results of `classify_issues` over the index
positions `range (len df)`; any KeyError aborts (`none`). -/
def collectIssues (df : Df) : List Nat → Option (List String)
  | [] => some []
  | i :: is =>
    match classifyRowAt df i with
    | none => none
    | some issue =>
      match collectIssues df is with
      | none => none
      | some rest => some (issue :: rest)

/-- `classify_issues` (lines 93-144): the `issue_type` column produced
by looping `for i in range(len(df))` with `df.loc[i, ...]` lookups;
`none` models the KeyError raised when a label is absent. -/
def classify_issues (df : Df) : Option (List String) :=
  collectIssues df (List.range df.length)

/-- The `flag_tickets` loop at one label. -/
def flagRowAt (df : Df) (i : Nat) : Option (Bool × String) :=
  (pdLoc df i).map (fun r => flagMessage r.message)

/-- Accumulate the per-row results of `flag_tickets`. -/
def collectFlags (df : Df) : List Nat → Option (List (Bool × String))
  | [] => some []
  | i :: is =>
    match flagRowAt df i with
    | none => none
    | some p =>
      match collectFlags df is with
      | none => none
      | some rest => some (p :: rest)

/-- `flag_tickets` (lines 148-181): the `(is_flagged, flag_reason)`
columns, with `none` modelling a KeyError on a missing label. -/
def flag_tickets (df : Df) : Option (List (Bool × String)) :=
  collectFlags df (List.range df.length)

/-! ## Summary stage (`create_summary`) -/

/-- A row as seen by `create_summary`: only the fields it reads. -/
structure LabeledRow where
  is_flagged : Bool
  resolution_time_hours : ℚ
deriving DecidableEq, Repr

/-- A summary value that is either a number or the sentinel "N/A". -/
inductive NumOrNA where
  | num : ℚ → NumOrNA
  | na : NumOrNA
deriving DecidableEq, Repr

/-- The summary record built by `create_summary` (fixed keys; the
per-issue-type counts are not needed by any claim). -/
structure Summary where
  total_tickets : Nat
  flagged_tickets : Nat
  flagged_percent : ℚ
  avg_resolution_flagged_hours : NumOrNA
  avg_resolution_not_flagged_hours : NumOrNA
deriving Repr

/-- The flagged-count loop of `create_summary` (lines 194-197). -/
def countFlagged : List LabeledRow → Nat
  | [] => 0
  | r :: rest => (if r.is_flagged then 1 else 0) + countFlagged rest

/-- The flagged / not-flagged sum-and-count loop of `create_summary`
(lines 210-222); returns
`(flagged_sum, flagged_n, not_flagged_sum, not_flagged_n)`. -/
def splitSums : List LabeledRow → ℚ × Nat × ℚ × Nat
  | [] => (0, 0, 0, 0)
  | r :: rest =>
    let (fs, fn, ns, nn) := splitSums rest
    if r.is_flagged then (fs + r.resolution_time_hours, fn + 1, ns, nn)
    else (fs, fn, ns + r.resolution_time_hours, nn + 1)

/-- `create_summary` (lines 186-251), restricted to the keys the claims
are about.  Division is exact rational division (Python floats are
modelled as exact rationals). -/
def create_summary (rows : List LabeledRow) : Summary :=
  let total_tickets := rows.length
  let flagged_count := countFlagged rows
  let flagged_percent : ℚ :=
    if total_tickets > 0 then ((flagged_count : ℚ) / (total_tickets : ℚ)) * 100
    else 0
  let (flagged_sum, flagged_n, not_flagged_sum, not_flagged_n) := splitSums rows
  { total_tickets := total_tickets
    flagged_tickets := flagged_count
    flagged_percent := flagged_percent
    avg_resolution_flagged_hours :=
      if flagged_n > 0 then .num (flagged_sum / (flagged_n : ℚ)) else .na
    avg_resolution_not_flagged_hours :=
      if not_flagged_n > 0 then .num (not_flagged_sum / (not_flagged_n : ℚ)) else .na }

/-! ## Propositional characterizations of the string primitives -/

/-- `KeywordMatch ws t`: some keyword of `ws` is a contiguous substring
of `t` (the mathematical statement of Python's `any(w in t)`). -/
def KeywordMatch (words : List String) (text : String) : Prop :=
  ∃ w ∈ words, w.data <:+: text.data

instance (words : List String) (text : String) :
    Decidable (KeywordMatch words text) :=
  inferInstanceAs (Decidable (∃ w ∈ words, w.data <:+: text.data))

/-- The mathematical statement of Python's `isupper`: at least one cased
character and no lowercase one. -/
def PyUpperProp (s : String) : Prop :=
  (∃ c ∈ s.data, c.isAlpha = true) ∧ ∀ c ∈ s.data, c.isLower = false

instance (s : String) : Decidable (PyUpperProp s) :=
  inferInstanceAs (Decidable (_ ∧ _))

theorem strContains_iff (hay needle : String) :
    strContains hay needle = true ↔ needle.data <:+: hay.data := by
  simp [strContains]

theorem anyWordIn_iff (words : List String) (text : String) :
    anyWordIn words text = true ↔ KeywordMatch words text := by
  simp [anyWordIn, KeywordMatch, List.any_eq_true, strContains_iff]

theorem pyIsUpper_iff (s : String) :
    pyIsUpper s = true ↔ PyUpperProp s := by
  simp [pyIsUpper, PyUpperProp, List.any_eq_true, List.all_eq_true]

/-! ## Theorems -/

/-- C4: the claim that a row with absent `priority` ends with `"Low"`
(and absent `status` with `"Open"`) FAILS on the code: `main` runs
`clean_text_columns` before `handle_missing_values`, and
`astype(str)` turns NaN into the string "nan", which `.str.title()`
turns into "Nan"; the later `fillna("Low")` / `fillna("Open")` then
finds no NaN left, so the absent cell ends as "Nan". -/
theorem c4_missing_priority_yields_Nan_not_Low :
    priorityAfterPipeline PdCell.nan = PdCell.str "Nan" ∧
    statusAfterPipeline PdCell.nan = PdCell.str "Nan" ∧
    priorityAfterPipeline PdCell.nan ≠ PdCell.str "Low" ∧
    statusAfterPipeline PdCell.nan ≠ PdCell.str "Open" := by
  refine ⟨rfl, rfl, by decide, by decide⟩

/-- A three-row batch whose first two rows are identical: the input on
which deduplication followed by classification crashes. -/
def exDupDf : Df :=
  [ (0, ⟨"Low", "Open", "refund request", "please refund my order now", 3⟩),
    (1, ⟨"Low", "Open", "refund request", "please refund my order now", 3⟩),
    (2, ⟨"High", "Open", "site down", "the login page shows an error", 5⟩) ]

/-- C3: the claim that every row surviving deduplication is classified
and flagged FAILS on the code: `drop_duplicates(inplace=True)` keeps
index labels {0, 2}, and the `for i in range(len(df))` loops in
`classify_issues` / `flag_tickets` then look up `df.loc[1, ...]`, a
missing label — a KeyError (`none` in the model). -/
theorem c3_dedup_then_classify_crashes :
    remove_duplicates exDupDf =
      [ (0, ⟨"Low", "Open", "refund request", "please refund my order now", 3⟩),
        (2, ⟨"High", "Open", "site down", "the login page shows an error", 5⟩) ] ∧
    classify_issues (remove_duplicates exDupDf) = none ∧
    flag_tickets (remove_duplicates exDupDf) = none := by
  refine ⟨by decide, by decide, by decide⟩

/-- C1: the classifier lowercases `subject + " " + message` and assigns
the label of the first category, in the fixed order Billing, Technical,
Account, Delivery, whose keyword set has a contiguous-substring match in
that text; later categories never override an earlier match, and
matching is plain substring containment. -/
theorem c1_classifier_fixed_priority_order (subject message : String) :
    (classifyText subject message = "Billing" ↔
      KeywordMatch ["refund", "charge", "invoice", "payment"]
        (pyLower (subject ++ " " ++ message))) ∧
    (classifyText subject message = "Technical" ↔
      ¬ KeywordMatch ["refund", "charge", "invoice", "payment"]
          (pyLower (subject ++ " " ++ message)) ∧
      KeywordMatch ["error", "bug", "crash", "login", "failed"]
        (pyLower (subject ++ " " ++ message))) ∧
    (classifyText subject message = "Account" ↔
      ¬ KeywordMatch ["refund", "charge", "invoice", "payment"]
          (pyLower (subject ++ " " ++ message)) ∧
      ¬ KeywordMatch ["error", "bug", "crash", "login", "failed"]
          (pyLower (subject ++ " " ++ message)) ∧
      KeywordMatch ["password", "email", "account", "verify"]
        (pyLower (subject ++ " " ++ message))) ∧
    (classifyText subject message = "Delivery" ↔
      ¬ KeywordMatch ["refund", "charge", "invoice", "payment"]
          (pyLower (subject ++ " " ++ message)) ∧
      ¬ KeywordMatch ["error", "bug", "crash", "login", "failed"]
          (pyLower (subject ++ " " ++ message)) ∧
      ¬ KeywordMatch ["password", "email", "account", "verify"]
          (pyLower (subject ++ " " ++ message)) ∧
      KeywordMatch ["delivery", "shipping", "late", "tracking"]
        (pyLower (subject ++ " " ++ message))) := by
  have hb := anyWordIn_iff billing_words (pyLower (subject ++ " " ++ message))
  have ht := anyWordIn_iff technical_words (pyLower (subject ++ " " ++ message))
  have ha := anyWordIn_iff account_words (pyLower (subject ++ " " ++ message))
  have hd := anyWordIn_iff delivery_words (pyLower (subject ++ " " ++ message))
  rw [billing_words] at hb
  rw [technical_words] at ht
  rw [account_words] at ha
  rw [delivery_words] at hd
  cases h1 : anyWordIn billing_words (pyLower (subject ++ " " ++ message)) <;>
    cases h2 : anyWordIn technical_words (pyLower (subject ++ " " ++ message)) <;>
      cases h3 : anyWordIn account_words (pyLower (subject ++ " " ++ message)) <;>
        cases h4 : anyWordIn delivery_words (pyLower (subject ++ " " ++ message)) <;>
          simp_all [classifyText, billing_words, technical_words, account_words,
            delivery_words]

/-- C5: the assigned `issue_type` is always one of Billing, Technical,
Account, Delivery, Other (the classifier is total, so it is never
null/absent), and it is "Other" iff no keyword of any of the four sets
is a substring of the lowercased `subject + " " + message`; with empty
subject and message the combined text is a single space and the label is
"Other". -/
theorem c5_issue_type_total_other_iff (subject message : String) :
    classifyText subject message ∈
      (["Billing", "Technical", "Account", "Delivery", "Other"] : List String) ∧
    (classifyText subject message = "Other" ↔
      ¬ KeywordMatch ["refund", "charge", "invoice", "payment"]
          (pyLower (subject ++ " " ++ message)) ∧
      ¬ KeywordMatch ["error", "bug", "crash", "login", "failed"]
          (pyLower (subject ++ " " ++ message)) ∧
      ¬ KeywordMatch ["password", "email", "account", "verify"]
          (pyLower (subject ++ " " ++ message)) ∧
      ¬ KeywordMatch ["delivery", "shipping", "late", "tracking"]
          (pyLower (subject ++ " " ++ message))) ∧
    pyLower ("" ++ " " ++ "") = " " ∧
    classifyText "" "" = "Other" := by
  refine ⟨?_, ?_, by decide, by decide⟩ <;>
    cases h1 : anyWordIn billing_words (pyLower (subject ++ " " ++ message)) <;>
      cases h2 : anyWordIn technical_words (pyLower (subject ++ " " ++ message)) <;>
        cases h3 : anyWordIn account_words (pyLower (subject ++ " " ++ message)) <;>
          cases h4 : anyWordIn delivery_words (pyLower (subject ++ " " ++ message)) <;>
            simp_all [classifyText, ← anyWordIn_iff, billing_words, technical_words,
              account_words, delivery_words]

/-- C2: the flagger evaluates exactly three rules in order with
first-match-wins on the cleaned message: length < 20 → "Message too
short"; else Python-`isupper` (some cased character, no lowercase one) →
"Message in all caps"; else a literal `"!!!"` or `"???"` substring →
"Excessive punctuation"; else unflagged with empty reason.  A message
both short and all-caps therefore gets "Message too short". -/
theorem c2_flagger_rule_order (m : String) :
    (flagMessage m = (true, "Message too short") ↔ m.length < 20) ∧
    (flagMessage m = (true, "Message in all caps") ↔
      20 ≤ m.length ∧ PyUpperProp m) ∧
    (flagMessage m = (true, "Excessive punctuation") ↔
      20 ≤ m.length ∧ ¬ PyUpperProp m ∧
      (("!!!" : String).data <:+: m.data ∨ ("???" : String).data <:+: m.data)) ∧
    (flagMessage m = (false, "") ↔
      20 ≤ m.length ∧ ¬ PyUpperProp m ∧
      ¬ ("!!!" : String).data <:+: m.data ∧
      ¬ ("???" : String).data <:+: m.data) := by
  have hu := pyIsUpper_iff m
  have hc1 := strContains_iff m "!!!"
  have hc2 := strContains_iff m "???"
  by_cases hl : m.length < 20 <;>
    cases h2 : pyIsUpper m <;>
      cases h3 : strContains m "!!!" <;>
        cases h4 : strContains m "???" <;>
          simp_all [flagMessage] <;> (split_ifs <;> simp_all)

/-- C6: a message with no cased character is never caught by the
all-caps rule: if it also has length ≥ 20 and contains neither "!!!"
nor "???", it is not flagged at all. -/
theorem c6_uncased_never_allcaps (m : String)
    (hcased : ∀ c ∈ m.data, c.isAlpha = false)
    (hlen : 20 ≤ m.length)
    (h1 : ¬ ("!!!" : String).data <:+: m.data)
    (h2 : ¬ ("???" : String).data <:+: m.data) :
    flagMessage m = (false, "") := by
  have hup : pyIsUpper m = false := by
    simp only [pyIsUpper, Bool.and_eq_false_iff]
    exact Or.inl (by simpa [List.any_eq_false] using hcased)
  have hs1 : strContains m "!!!" = false := by
    simpa [strContains] using h1
  have hs2 : strContains m "???" = false := by
    simpa [strContains] using h2
  simp [flagMessage, hup, hs1, hs2, Nat.not_lt.mpr hlen]

/-- Witness for C6 at the spec's own example, a 20-digit message. -/
theorem c6_uncased_never_allcaps_witness :
    (∀ c ∈ ("12345678901234567890" : String).data, c.isAlpha = false) ∧
    20 ≤ ("12345678901234567890" : String).length ∧
    flagMessage "12345678901234567890" = (false, "") :=
  ⟨by decide, by decide,
    c6_uncased_never_allcaps "12345678901234567890"
      (by decide) (by decide) (by decide) (by decide)⟩

/-- C7: after flagging, `is_flagged` is true iff `flag_reason` is
non-empty, and the reason is always one of the three fixed strings or
empty. -/
theorem c7_flag_reason_invariant (m : String) :
    ((flagMessage m).1 = true ↔ (flagMessage m).2 ≠ "") ∧
    (flagMessage m).2 ∈
      (["Message too short", "Message in all caps",
        "Excessive punctuation", ""] : List String) := by
  unfold flagMessage
  split_ifs <;> simp

/-- The loop accumulators of `create_summary` equal sum/length over the
flagged and non-flagged sublists. -/
theorem splitSums_eq (rows : List LabeledRow) :
    splitSums rows =
      (((rows.filter (fun r => r.is_flagged)).map
          (fun r => r.resolution_time_hours)).sum,
       (rows.filter (fun r => r.is_flagged)).length,
       ((rows.filter (fun r => !r.is_flagged)).map
          (fun r => r.resolution_time_hours)).sum,
       (rows.filter (fun r => !r.is_flagged)).length) := by
  induction rows with
  | nil => rfl
  | cons r rest ih =>
    cases h : r.is_flagged <;>
      simp [splitSums, ih, h, List.filter_cons, add_comm]

/-- C8: flagged percentage is 0 (a number, not an error) when the total
is 0, and each subset mean is the sentinel `"N/A"` exactly when its
subset is empty, and the exact arithmetic mean of the subset's
`resolution_time_hours` otherwise. -/
theorem c8_summary_sentinels (rows : List LabeledRow) :
    ((create_summary rows).total_tickets = 0 →
      (create_summary rows).flagged_percent = 0) ∧
    ((create_summary rows).avg_resolution_flagged_hours = NumOrNA.na ↔
      rows.filter (fun r => r.is_flagged) = []) ∧
    (rows.filter (fun r => r.is_flagged) ≠ [] →
      (create_summary rows).avg_resolution_flagged_hours =
        NumOrNA.num
          (((rows.filter (fun r => r.is_flagged)).map
              (fun r => r.resolution_time_hours)).sum /
            ((rows.filter (fun r => r.is_flagged)).length : ℚ))) ∧
    ((create_summary rows).avg_resolution_not_flagged_hours = NumOrNA.na ↔
      rows.filter (fun r => !r.is_flagged) = []) ∧
    (rows.filter (fun r => !r.is_flagged) ≠ [] →
      (create_summary rows).avg_resolution_not_flagged_hours =
        NumOrNA.num
          (((rows.filter (fun r => !r.is_flagged)).map
              (fun r => r.resolution_time_hours)).sum /
            ((rows.filter (fun r => !r.is_flagged)).length : ℚ))) := by
  have hs := splitSums_eq rows
  refine ⟨?_, ?_, ?_, ?_, ?_⟩
  · intro h
    have h0 : rows.length = 0 := h
    simp [create_summary, h0]
  · by_cases hf : rows.filter (fun r => r.is_flagged) = []
    · simp [create_summary, hs, hf]
    · have hl : 0 < (rows.filter (fun r => r.is_flagged)).length :=
        List.length_pos.mpr hf
      simp [create_summary, hs, hf, hl]
  · intro hf
    have hl : 0 < (rows.filter (fun r => r.is_flagged)).length :=
      List.length_pos.mpr hf
    simp [create_summary, hs, hl]
  · by_cases hf : rows.filter (fun r => !r.is_flagged) = []
    · simp [create_summary, hs, hf]
    · have hl : 0 < (rows.filter (fun r => !r.is_flagged)).length :=
        List.length_pos.mpr hf
      simp [create_summary, hs, hf, hl]
  · intro hf
    have hl : 0 < (rows.filter (fun r => !r.is_flagged)).length :=
      List.length_pos.mpr hf
    simp [create_summary, hs, hl]

/-- Witness for C8: the empty batch gets percentage 0 and sentinel
means; a batch of two flagged rows with times 4 and 6 gets mean 5. -/
theorem c8_summary_sentinels_witness :
    (create_summary []).flagged_percent = 0 ∧
    (create_summary []).avg_resolution_flagged_hours = NumOrNA.na ∧
    (create_summary [⟨true, 4⟩, ⟨true, 6⟩]).avg_resolution_flagged_hours =
      NumOrNA.num 5 := by
  refine ⟨(c8_summary_sentinels []).1 rfl,
    ((c8_summary_sentinels []).2.1).mpr rfl, ?_⟩
  have h := (c8_summary_sentinels [⟨true, 4⟩, ⟨true, 6⟩]).2.2.1 (by decide)
  rw [h]
  norm_num [List.filter_cons]

/-- C9: on rows whose `subject` and `message` are already trimmed
strings, re-running the cleaning stage is the identity on those fields,
so classifying and flagging the re-cleaned text gives exactly the result
of classifying and flagging the text directly. -/
theorem c9_pipeline_idempotent_on_cleaned (s m : String)
    (hs : pyStrip s = s) (hm : pyStrip m = m) :
    cleanSubjectCell (.str s) = .str s ∧
    cleanMessageCell (.str m) = .str m ∧
    classifyText (astypeStr (cleanSubjectCell (.str s)))
        (astypeStr (cleanMessageCell (.str m))) = classifyText s m ∧
    flagMessage (astypeStr (cleanMessageCell (.str m))) = flagMessage m := by
  simp [cleanSubjectCell, cleanMessageCell, astypeStr, hs, hm]

/-- Witness for C9 on a concrete already-trimmed subject and message. -/
theorem c9_pipeline_idempotent_on_cleaned_witness :
    pyStrip "Refund request" = "Refund request" ∧
    pyStrip "my payment was charged twice" = "my payment was charged twice" ∧
    classifyText (astypeStr (cleanSubjectCell (.str "Refund request")))
        (astypeStr (cleanMessageCell (.str "my payment was charged twice"))) =
      classifyText "Refund request" "my payment was charged twice" ∧
    flagMessage (astypeStr (cleanMessageCell
        (.str "my payment was charged twice"))) =
      flagMessage "my payment was charged twice" := by
  have h := c9_pipeline_idempotent_on_cleaned "Refund request"
    "my payment was charged twice" (by decide) (by decide)
  exact ⟨by decide, by decide, h.2.2.1, h.2.2.2⟩

/-- Each entry produced by the `classify_issues` loop comes from the
`pdLoc` lookup of the corresponding label alone. -/
theorem collectIssues_getElem? (df : Df) (l : List Nat) (out : List String)
    (h : collectIssues df l = some out) (k i : Nat) (hk : l[k]? = some i) :
    ∃ r, pdLoc df i = some r ∧
      out[k]? = some (classifyText r.subject r.message) := by
  induction l generalizing out k with
  | nil => simp at hk
  | cons j rest ih =>
    rw [collectIssues] at h
    cases hj : classifyRowAt df j <;> rw [hj] at h
    · exact absurd h (by simp)
    · cases hrest : collectIssues df rest <;> rw [hrest] at h
      · exact absurd h (by simp)
      · rename_i issue out'
        obtain rfl : issue :: out' = out := by simpa using h
        obtain ⟨r, hr, hcl⟩ := Option.map_eq_some'.mp hj
        cases k with
        | zero =>
          obtain rfl : j = i := by simpa using hk
          exact ⟨r, hr, by simp [hcl]⟩
        | succ k =>
          have hk' : rest[k]? = some i := by simpa using hk
          obtain ⟨r', hr', ho'⟩ := ih out' hrest k hk'
          exact ⟨r', hr', by simpa using ho'⟩

/-- Each entry produced by the `flag_tickets` loop comes from the
`pdLoc` lookup of the corresponding label alone. -/
theorem collectFlags_getElem? (df : Df) (l : List Nat)
    (out : List (Bool × String))
    (h : collectFlags df l = some out) (k i : Nat) (hk : l[k]? = some i) :
    ∃ r, pdLoc df i = some r ∧ out[k]? = some (flagMessage r.message) := by
  induction l generalizing out k with
  | nil => simp at hk
  | cons j rest ih =>
    rw [collectFlags] at h
    cases hj : flagRowAt df j <;> rw [hj] at h
    · exact absurd h (by simp)
    · cases hrest : collectFlags df rest <;> rw [hrest] at h
      · exact absurd h (by simp)
      · rename_i p out'
        obtain rfl : p :: out' = out := by simpa using h
        obtain ⟨r, hr, hcl⟩ := Option.map_eq_some'.mp hj
        cases k with
        | zero =>
          obtain rfl : j = i := by simpa using hk
          exact ⟨r, hr, by simp [hcl]⟩
        | succ k =>
          have hk' : rest[k]? = some i := by simpa using hk
          obtain ⟨r', hr', ho'⟩ := ih out' hrest k hk'
          exact ⟨r', hr', by simpa using ho'⟩

/-- C10: classification and flagging are deterministic and row-local:
whenever two runs (over possibly different dataframes) succeed, rows
with identical cleaned subject and message get the identical
`issue_type`, and rows with identical cleaned message alone get the
identical `(is_flagged, flag_reason)` pair — no dependence on position,
row order, or the content of any other row. -/
theorem c10_classification_flagging_row_local (df1 df2 : Df)
    (out1 out2 : List String) (fl1 fl2 : List (Bool × String))
    (i1 i2 : Nat) (r1 r2 : StrRow)
    (h1 : classify_issues df1 = some out1)
    (h2 : classify_issues df2 = some out2)
    (g1 : flag_tickets df1 = some fl1)
    (g2 : flag_tickets df2 = some fl2)
    (hi1 : i1 < df1.length) (hi2 : i2 < df2.length)
    (hr1 : pdLoc df1 i1 = some r1) (hr2 : pdLoc df2 i2 = some r2) :
    (r1.subject = r2.subject → r1.message = r2.message →
      out1[i1]? = out2[i2]?) ∧
    (r1.message = r2.message → fl1[i1]? = fl2[i2]?) := by
  have hrange1 : (List.range df1.length)[i1]? = some i1 := by
    simp [List.getElem?_range, hi1]
  have hrange2 : (List.range df2.length)[i2]? = some i2 := by
    simp [List.getElem?_range, hi2]
  obtain ⟨s1, hs1, ho1⟩ :=
    collectIssues_getElem? df1 (List.range df1.length) out1 h1 i1 i1 hrange1
  obtain ⟨s2, hs2, ho2⟩ :=
    collectIssues_getElem? df2 (List.range df2.length) out2 h2 i2 i2 hrange2
  obtain ⟨t1, ht1, hf1⟩ :=
    collectFlags_getElem? df1 (List.range df1.length) fl1 g1 i1 i1 hrange1
  obtain ⟨t2, ht2, hf2⟩ :=
    collectFlags_getElem? df2 (List.range df2.length) fl2 g2 i2 i2 hrange2
  obtain rfl : r1 = s1 := Option.some.inj (hr1.symm.trans hs1)
  obtain rfl : r2 = s2 := Option.some.inj (hr2.symm.trans hs2)
  obtain rfl : r1 = t1 := Option.some.inj (hr1.symm.trans ht1)
  obtain rfl : r2 = t2 := Option.some.inj (hr2.symm.trans ht2)
  constructor
  · intro hsub hmsg
    rw [ho1, ho2, hsub, hmsg]
  · intro hmsg
    rw [hf1, hf2, hmsg]

/-- A one-row batch whose row shares subject and message with the
second row of `locW2` but differs in every other field and position. -/
def locW1 : Df :=
  [ (0, ⟨"Low", "Open", "refund request", "please refund my order now", 3⟩) ]

/-- A two-row batch whose second row matches `locW1`'s only row on
subject and message. -/
def locW2 : Df :=
  [ (0, ⟨"High", "Closed", "hello", "just writing to say thanks", 1⟩),
    (1, ⟨"High", "Open", "refund request", "please refund my order now", 2⟩) ]

/-- A two-row batch whose second row matches `locW1`'s only row on
message alone: the subject differs. -/
def locW3 : Df :=
  [ (0, ⟨"High", "Closed", "hello", "just writing to say thanks", 1⟩),
    (1, ⟨"High", "Open", "billing question", "please refund my order now", 2⟩) ]

/-- Witness for C10: the subject-and-message-matching rows of `locW1`
and `locW2` get the same label, and the message-only-matching rows of
`locW1` and `locW3` (different subjects) get the same flag pair,
despite different positions, neighbours and other fields. -/
theorem c10_classification_flagging_row_local_witness :
    classify_issues locW1 = some ["Billing"] ∧
    classify_issues locW2 = some ["Other", "Billing"] ∧
    flag_tickets locW1 = some [(false, "")] ∧
    flag_tickets locW2 = some [(false, ""), (false, "")] ∧
    flag_tickets locW3 = some [(false, ""), (false, "")] ∧
    (["Billing"] : List String)[0]? = (["Other", "Billing"] : List String)[1]? ∧
    ([(false, "")] : List (Bool × String))[0]? =
      ([(false, ""), (false, "")] : List (Bool × String))[1]? := by
  have ha := c10_classification_flagging_row_local locW1 locW2
    ["Billing"] ["Other", "Billing"]
    [(false, "")] [(false, ""), (false, "")] 0 1
    ⟨"Low", "Open", "refund request", "please refund my order now", 3⟩
    ⟨"High", "Open", "refund request", "please refund my order now", 2⟩
    (by decide) (by decide) (by decide) (by decide)
    (by decide) (by decide) (by decide) (by decide)
  have hb := c10_classification_flagging_row_local locW1 locW3
    ["Billing"] ["Other", "Billing"]
    [(false, "")] [(false, ""), (false, "")] 0 1
    ⟨"Low", "Open", "refund request", "please refund my order now", 3⟩
    ⟨"High", "Open", "billing question", "please refund my order now", 2⟩
    (by decide) (by decide) (by decide) (by decide)
    (by decide) (by decide) (by decide) (by decide)
  exact ⟨by decide, by decide, by decide, by decide, by decide,
    ha.1 rfl rfl, hb.2 rfl⟩
